import Mathlib

/-!
Shallow embedding of the CompetiScope agent (`main.py`): the TTL cache,
the three data collectors, the AI insight generator with its JSON-parse
fallback, the analysis orchestrator `get_comprehensive_analysis`, the
`/analyze` endpoint validation, and the Telex webhook command routing.

Time is modelled as an integer number of seconds; Python dicts as
association lists; the JSON values moved between components as a small
inductive `JsonVal`; the language-model call as an oracle (`LLMOutcome`)
saying whether its text parsed as JSON, failed to parse, or errored.
-/

/-- A JSON-like value: the shape of the data bags the collectors return
and of the merged `comprehensive_data` dict. -/
inductive JsonVal where
  | null : JsonVal
  | str : String → JsonVal
  | int : Int → JsonVal
  | arr : List JsonVal → JsonVal
  | obj : List (String × JsonVal) → JsonVal

/-- Python `dict.get(key)`: first binding of `key` in an object, if any. -/
def jget (v : JsonVal) (key : String) : Option JsonVal :=
  match v with
  | .obj l => lookupAssoc l key
  | _ => none
where
  lookupAssoc : List (String × JsonVal) → String → Option JsonVal
    | [], _ => none
    | (k, x) :: rest, key => if k = key then some x else lookupAssoc rest key

/-- Whether a collector bag carries an `"error"` key (the tag the source
puts into the stand-in dicts built in the collectors' except-branches). -/
def hasErrorTag (v : JsonVal) : Bool :=
  match jget v "error" with
  | some _ => true
  | none => false

/-- Python `str.strip()` on the ASCII whitespace this program meets. -/
def isWS (c : Char) : Bool :=
  c = ' ' || c = '\t' || c = '\n' || c = '\r'

def trimStr (s : String) : String :=
  ⟨((s.data.dropWhile isWS).reverse.dropWhile isWS).reverse⟩

/-- Python `str.lower()` (ASCII range, all this program needs). -/
def lowerStr (s : String) : String :=
  ⟨s.data.map Char.toLower⟩

/-- Python `str.startswith(p)`. -/
def strStartsWith (s p : String) : Bool :=
  p.data.isPrefixOf s.data

/-- Python `s.split(" ", 1)`: text before the first space, and — when a
space exists — everything after it. -/
def splitOnceAux : List Char → List Char × Option (List Char)
  | [] => ([], none)
  | c :: rest =>
      if c = ' ' then ([], some rest)
      else
        let (a, b) := splitOnceAux rest
        (c :: a, b)

def splitOnce (s : String) : String × Option String :=
  let (a, b) := splitOnceAux s.data
  (⟨a⟩, b.map fun l => ⟨l⟩)

/-- Python `"-".join(l)`. -/
def joinHyphen : List String → String
  | [] => ""
  | [s] => s
  | s :: rest => s ++ "-" ++ joinHyphen rest

/-! ## Data collectors (main.py lines 64-113)

Each collector wraps its body in try/except.  The `fails` flag models
"the body raised": the except-branch value is then returned instead.
The news item's `date` field holds the serialized current time. -/

def get_company_basic_info (company_name : String) (fails : Bool) : JsonVal :=
  if fails then
    .obj [("name", .str company_name),
          ("error", .str "Could not fetch basic info")]
  else
    .obj [("name", .str company_name),
          ("industry", .str "Technology"),
          ("founded", .str "Unknown"),
          ("headquarters", .str "Unknown"),
          ("employees", .str "Unknown"),
          ("description", .str ("Information about " ++ company_name)),
          ("source", .str "public_data")]

def get_recent_news (company_name : String) (days : Int) (fails : Bool)
    (now : Int) : JsonVal :=
  if fails then
    .arr []
  else
    .arr [.obj [("title", .str ("Recent developments at " ++ company_name)),
                ("summary", .str ("Latest news and updates about " ++ company_name)),
                ("sentiment", .str "neutral"),
                ("date", .str (toString now)),
                ("source", .str "news_simulation")]]

def get_market_data (company_name : String) (fails : Bool) : JsonVal :=
  if fails then
    .obj [("error", .str "Could not fetch market data")]
  else
    .obj [("market_cap", .str "Unknown"),
          ("stock_price", .str "Unknown"),
          ("revenue", .str "Unknown"),
          ("market_share", .str "Unknown"),
          ("growth_rate", .str "Unknown"),
          ("source", .str "market_simulation")]

/-! ## AI insight generator (main.py lines 115-158) -/

/-- The mapping parsed from the model's JSON text.  Every field is
optional: downstream reads each with `.get(key, default)`. -/
structure AIInsights where
  analysis_summary : Option String := none
  strengths : Option (List String) := none
  weaknesses : Option (List String) := none
  opportunities : Option (List String) := none
  threats : Option (List String) := none
  market_position : Option String := none
  recommendations : Option (List String) := none
  confidence_score : Option Int := none
deriving DecidableEq

/-- Oracle for `model.generate_content` + `json.loads`: the text parsed
to `insights`, raised `json.JSONDecodeError`, or some other exception. -/
inductive LLMOutcome where
  | parsed : AIInsights → LLMOutcome
  | parseError : LLMOutcome
  | fatalError : LLMOutcome

/-- `company_data.get('basic_info', {}).get('name', 'company')`. -/
def basicInfoName (company_data : JsonVal) : String :=
  match jget ((jget company_data "basic_info").getD (.obj [])) "name" with
  | some (.str s) => s
  | _ => "company"

/-- The canned payload returned from the `json.JSONDecodeError` branch. -/
def fallbackInsights (name : String) : AIInsights :=
  { analysis_summary := some ("Basic analysis of " ++ name ++ " based on available data."),
    strengths := some ["Market presence", "Brand recognition", "Innovation capability"],
    weaknesses := some ["Limited data available", "Market competition", "Economic sensitivity"],
    opportunities := some ["Digital transformation", "Market expansion", "Strategic partnerships"],
    threats := some ["Economic uncertainty", "Competitive pressure", "Regulatory changes"],
    market_position := some "Competitive position requires further analysis with more comprehensive data.",
    recommendations := some ["Conduct deeper market research", "Monitor competitor activities", "Focus on differentiation"],
    confidence_score := some 60 }

/-- `analyze_with_ai`: parsed JSON is returned as-is; a parse failure
returns the canned payload; any other exception raises HTTP 500,
modelled as `Except.error`. -/
def analyze_with_ai (company_data : JsonVal) (_focus_areas : Option (List String))
    (llm : LLMOutcome) : Except Unit AIInsights :=
  match llm with
  | .parsed ins => .ok ins
  | .parseError => .ok (fallbackInsights (basicInfoName company_data))
  | .fatalError => .error ()

/-! ## Result model and cache (main.py lines 37-61, 160-165) -/

structure CompetitorIntelligence where
  company : String
  analysis_summary : String
  strengths : List String
  weaknesses : List String
  opportunities : List String
  threats : List String
  market_position : String
  recommendations : List String
  confidence_score : Int
  data_sources : List String
deriving DecidableEq

structure CacheEntry where
  data : CompetitorIntelligence
  timestamp : Int
deriving DecidableEq

/-- The module-level `cache: Dict[str, Dict]`, as an association list. -/
def Cache : Type := List (String × CacheEntry)

def CACHE_TTL : Int := 3600

/-- `cache_key in cache` + `cache[cache_key]`. -/
def cacheLookup : List (String × CacheEntry) → String → Option CacheEntry
  | [], _ => none
  | (k, e) :: rest, key => if k = key then some e else cacheLookup rest key

/-- `cache[cache_key] = entry`: overwrite the binding or append it. -/
def cacheInsert : List (String × CacheEntry) → String → CacheEntry →
    List (String × CacheEntry)
  | [], key, e => [(key, e)]
  | (k, e₀) :: rest, key, e =>
      if k = key then (key, e) :: rest else (k, e₀) :: cacheInsert rest key e

/-- `is_cache_valid`: the entry is fresh while strictly younger than the
TTL (`datetime.now() - cache_time < timedelta(seconds=CACHE_TTL)`). -/
def is_cache_valid (cache_entry : CacheEntry) (now : Int) : Bool :=
  decide (now - cache_entry.timestamp < CACHE_TTL)

/-- `f"{company}_{market}_{'-'.join(focus_areas or [])}"`; an absent
market is interpolated by Python as the literal text `None`. -/
def cacheKey (company : String) (market : Option String)
    (focus_areas : Option (List String)) : String :=
  company ++ "_" ++ (match market with | some m => m | none => "None")
    ++ "_" ++ joinHyphen (focus_areas.getD [])

/-! ## Orchestrator (main.py lines 167-219) -/

/-- The external world of one request: whether each collector body
raises, and what the language-model call does. -/
structure Env where
  basicInfoFails : Bool := false
  newsFails : Bool := false
  marketDataFails : Bool := false
  llm : LLMOutcome

/-- One orchestrator run: its outcome, the cache it leaves behind, and
a tally of the observable effects it performed. -/
structure RunResult where
  result : Except Unit CompetitorIntelligence
  cache : List (String × CacheEntry)
  cacheReads : Nat
  collectorCalls : Nat
  generatorCalls : Nat
  cacheWrites : Nat

/-- Assembly of the final `CompetitorIntelligence` from the generator's
mapping (main.py lines 197-208). -/
def assembleResult (company : String) (ai : AIInsights) : CompetitorIntelligence :=
  { company := company,
    analysis_summary := ai.analysis_summary.getD "",
    strengths := ai.strengths.getD [],
    weaknesses := ai.weaknesses.getD [],
    opportunities := ai.opportunities.getD [],
    threats := ai.threats.getD [],
    market_position := ai.market_position.getD "",
    recommendations := ai.recommendations.getD [],
    confidence_score := ai.confidence_score.getD 70,
    data_sources := ["company_data", "news_analysis", "market_data", "ai_analysis"] }

/-- The cache-miss path: gather the three collectors, merge the bags,
run the generator, assemble, store. -/
def freshAnalysis (company : String) (market : Option String)
    (focus_areas : Option (List String)) (env : Env)
    (st : List (String × CacheEntry)) (now : Int) (key : String) : RunResult :=
  let basic_info := get_company_basic_info company env.basicInfoFails
  let news_data := get_recent_news company 30 env.newsFails now
  let market_data := get_market_data company env.marketDataFails
  let comprehensive_data : JsonVal :=
    .obj [("basic_info", basic_info),
          ("recent_news", news_data),
          ("market_data", market_data),
          ("analysis_request",
            .obj [("company", .str company),
                  ("market", match market with | some m => .str m | none => .null),
                  ("focus_areas", match focus_areas with
                    | some l => .arr (l.map .str) | none => .null)])]
  match analyze_with_ai comprehensive_data focus_areas env.llm with
  | .error _ =>
      { result := .error (), cache := st, cacheReads := 1,
        collectorCalls := 3, generatorCalls := 1, cacheWrites := 0 }
  | .ok ai_insights =>
      let result := assembleResult company ai_insights
      { result := .ok result,
        cache := cacheInsert st key { data := result, timestamp := now },
        cacheReads := 1, collectorCalls := 3, generatorCalls := 1,
        cacheWrites := 1 }

/-- `get_comprehensive_analysis`: serve a valid cache entry unchanged,
otherwise regenerate and store. -/
def get_comprehensive_analysis (company : String) (market : Option String)
    (focus_areas : Option (List String)) (env : Env)
    (st : List (String × CacheEntry)) (now : Int) : RunResult :=
  let key := cacheKey company market focus_areas
  match cacheLookup st key with
  | some entry =>
      if is_cache_valid entry now then
        { result := .ok entry.data, cache := st, cacheReads := 1,
          collectorCalls := 0, generatorCalls := 0, cacheWrites := 0 }
      else freshAnalysis company market focus_areas env st now key
  | none => freshAnalysis company market focus_areas env st now key

/-! ## HTTP endpoint (main.py lines 235-254) -/

structure CompanyAnalysisRequest where
  company : String
  market : Option String := none
  focus_areas : Option (List String) := none

inductive ApiResponse where
  | ok : CompetitorIntelligence → ApiResponse
  | httpError : Nat → String → ApiResponse
deriving DecidableEq

structure EndpointResult where
  response : ApiResponse
  cache : List (String × CacheEntry)
  cacheReads : Nat
  collectorCalls : Nat
  generatorCalls : Nat
  cacheWrites : Nat

/-- `analyze_competitor`: reject a blank company with HTTP 400 before
doing anything; wrap any orchestration failure as HTTP 500. -/
def analyze_competitor (request : CompanyAnalysisRequest) (env : Env)
    (st : List (String × CacheEntry)) (now : Int) : EndpointResult :=
  if trimStr request.company = "" then
    { response := .httpError 400 "Company name is required", cache := st,
      cacheReads := 0, collectorCalls := 0, generatorCalls := 0,
      cacheWrites := 0 }
  else
    let run := get_comprehensive_analysis request.company request.market
      request.focus_areas env st now
    match run.result with
    | .ok r =>
        { response := .ok r, cache := run.cache, cacheReads := run.cacheReads,
          collectorCalls := run.collectorCalls,
          generatorCalls := run.generatorCalls, cacheWrites := run.cacheWrites }
    | .error _ =>
        { response := .httpError 500 "Analysis failed", cache := run.cache,
          cacheReads := run.cacheReads, collectorCalls := run.collectorCalls,
          generatorCalls := run.generatorCalls, cacheWrites := run.cacheWrites }

/-! ## Telex webhook routing (main.py lines 256-316) -/

inductive WebhookRoute where
  | analysis : String → WebhookRoute
  | promptForCompany : WebhookRoute
  | greeting : WebhookRoute
deriving DecidableEq

/-- `content.lower().startswith(("analyze", "check", "research"))`. -/
def isAnalysisCommand (lowered : String) : Bool :=
  strStartsWith lowered "analyze" || strStartsWith lowered "check"
    || strStartsWith lowered "research"

/-- Routing portion of `telex_webhook`: strip the content, dispatch on
the lowercase prefix, and when a command has an argument analyze the
text after the first space. -/
def telex_webhook (rawContent : String) : WebhookRoute :=
  let content := trimStr rawContent
  if isAnalysisCommand (lowerStr content) then
    match splitOnce content with
    | (_, some rest) => .analysis (trimStr rest)
    | (_, none) => .promptForCompany
  else .greeting

/-! ## Cache lemmas -/

theorem cacheLookup_insert (st : List (String × CacheEntry)) (k : String) (e : CacheEntry) :
    cacheLookup (cacheInsert st k e) k = some e := by
  induction st with
  | nil => simp [cacheInsert, cacheLookup]
  | cons p rest ih =>
      obtain ⟨k₀, e₀⟩ := p
      by_cases h : k₀ = k <;> simp [cacheInsert, cacheLookup, h, ih]

/-- A fresh run that performed a cache write produced some result `r`,
returned it, and stored exactly `r` at the key with the current time. -/
theorem fresh_shape (company : String) (market : Option String)
    (focus_areas : Option (List String)) (env : Env)
    (st : List (String × CacheEntry)) (now : Int) (key : String)
    (hw : (freshAnalysis company market focus_areas env st now key).cacheWrites = 1) :
    ∃ r, freshAnalysis company market focus_areas env st now key =
      { result := .ok r, cache := cacheInsert st key { data := r, timestamp := now },
        cacheReads := 1, collectorCalls := 3, generatorCalls := 1, cacheWrites := 1 } := by
  unfold freshAnalysis at hw ⊢
  cases h : env.llm with
  | parsed ins => simp [analyze_with_ai, h] at hw ⊢
  | parseError => simp [analyze_with_ai, h] at hw ⊢
  | fatalError => simp [analyze_with_ai, h] at hw

/-- A run of the orchestrator that performed a cache write produced a
result, returned it and stored it at the computed key. -/
theorem run_shape (company : String) (market : Option String)
    (focus_areas : Option (List String)) (env : Env)
    (st : List (String × CacheEntry)) (now : Int)
    (hw : (get_comprehensive_analysis company market focus_areas env st now).cacheWrites = 1) :
    ∃ r, get_comprehensive_analysis company market focus_areas env st now =
      { result := .ok r,
        cache := cacheInsert st (cacheKey company market focus_areas) { data := r, timestamp := now },
        cacheReads := 1, collectorCalls := 3, generatorCalls := 1, cacheWrites := 1 } := by
  unfold get_comprehensive_analysis at hw ⊢
  dsimp only at hw ⊢
  cases hl : cacheLookup st (cacheKey company market focus_areas) with
  | none =>
      rw [hl] at hw
      exact fresh_shape company market focus_areas env st now _ hw
  | some entry =>
      rw [hl] at hw
      dsimp only at hw ⊢
      cases hv : is_cache_valid entry now with
      | true => rw [hv] at hw; simp at hw
      | false =>
          rw [hv] at hw
          simp only [Bool.false_eq_true, if_false] at hw ⊢
          exact fresh_shape company market focus_areas env st now _ hw

/-- Running the orchestrator over a cache whose entry at the computed
key is younger than the TTL serves that entry with no effects. -/
theorem run_on_fresh_entry (company : String) (market : Option String)
    (focus_areas : Option (List String)) (env₂ : Env)
    (st : List (String × CacheEntry)) (t₁ t₂ : Int) (r : CompetitorIntelligence)
    (ht : t₂ - t₁ < CACHE_TTL) :
    get_comprehensive_analysis company market focus_areas env₂
        (cacheInsert st (cacheKey company market focus_areas) { data := r, timestamp := t₁ }) t₂ =
      { result := .ok r,
        cache := cacheInsert st (cacheKey company market focus_areas) { data := r, timestamp := t₁ },
        cacheReads := 1, collectorCalls := 0, generatorCalls := 0, cacheWrites := 0 } := by
  have hv : is_cache_valid { data := r, timestamp := t₁ } t₂ = true := by
    simp [is_cache_valid, ht]
  unfold get_comprehensive_analysis
  dsimp only
  rw [cacheLookup_insert]
  simp [hv]

/-! ## The claims -/

/-- C1: if a call to `get_comprehensive_analysis` wrote a cache entry at
time `t₁`, then a second call with identical `(company, market,
focus_areas)` at any time `t₂` within the TTL window returns the same
result, leaves the cache unchanged, and performs no collector call, no
generator call and no cache write — it is served purely from the cache,
whatever the external world does on the second call. -/
theorem analysis_idempotent_within_ttl (company : String) (market : Option String)
    (focus_areas : Option (List String)) (env env₂ : Env)
    (st : List (String × CacheEntry)) (t₁ t₂ : Int)
    (hw : (get_comprehensive_analysis company market focus_areas env st t₁).cacheWrites = 1)
    (ht : t₂ - t₁ < CACHE_TTL) :
    (get_comprehensive_analysis company market focus_areas env₂
        (get_comprehensive_analysis company market focus_areas env st t₁).cache t₂).result
      = (get_comprehensive_analysis company market focus_areas env st t₁).result ∧
    (get_comprehensive_analysis company market focus_areas env₂
        (get_comprehensive_analysis company market focus_areas env st t₁).cache t₂).cache
      = (get_comprehensive_analysis company market focus_areas env st t₁).cache ∧
    (get_comprehensive_analysis company market focus_areas env₂
        (get_comprehensive_analysis company market focus_areas env st t₁).cache t₂).collectorCalls = 0 ∧
    (get_comprehensive_analysis company market focus_areas env₂
        (get_comprehensive_analysis company market focus_areas env st t₁).cache t₂).generatorCalls = 0 ∧
    (get_comprehensive_analysis company market focus_areas env₂
        (get_comprehensive_analysis company market focus_areas env st t₁).cache t₂).cacheWrites = 0 := by
  obtain ⟨r, hr⟩ := run_shape company market focus_areas env st t₁ hw
  rw [hr]
  rw [run_on_fresh_entry company market focus_areas env₂ st t₁ t₂ r ht]
  exact ⟨rfl, rfl, rfl, rfl, rfl⟩

/-- C1 witness: the property at a concrete first call ("Acme", fresh
generation with a parse-failure fallback at time 0) and a second call
ten seconds later. -/
theorem analysis_idempotent_within_ttl_witness :
    (get_comprehensive_analysis "Acme" none none ⟨false, false, false, .parseError⟩ [] 0).cacheWrites = 1 ∧
    (10 : Int) - 0 < CACHE_TTL ∧
    (get_comprehensive_analysis "Acme" none none ⟨false, false, false, .parseError⟩
        (get_comprehensive_analysis "Acme" none none ⟨false, false, false, .parseError⟩ [] 0).cache 10).result
      = (get_comprehensive_analysis "Acme" none none ⟨false, false, false, .parseError⟩ [] 0).result :=
  ⟨rfl, by decide,
    (analysis_idempotent_within_ttl "Acme" none none
      ⟨false, false, false, .parseError⟩ ⟨false, false, false, .parseError⟩ [] 0 10
      rfl (by decide)).1⟩

/-- C2: when the model's text cannot be parsed as JSON,
`analyze_with_ai` returns (does not raise) the canned payload, whose
`confidence_score` is 60, for every collected data bag; and a fresh
orchestrator run then succeeds with exactly the assembly of that canned
payload, whose `confidence_score` is 60. -/
theorem parse_failure_returns_canned_payload
    (data : JsonVal) (fa : Option (List String)) (company : String)
    (market : Option String) (bf nf mf : Bool)
    (st : List (String × CacheEntry)) (now : Int)
    (hl : cacheLookup st (cacheKey company market fa) = none) :
    analyze_with_ai data fa .parseError = .ok (fallbackInsights (basicInfoName data)) ∧
    (fallbackInsights (basicInfoName data)).confidence_score = some 60 ∧
    (get_comprehensive_analysis company market fa ⟨bf, nf, mf, .parseError⟩ st now).result
      = Except.ok (assembleResult company (fallbackInsights company)) ∧
    (assembleResult company (fallbackInsights company)).confidence_score = 60 := by
  refine ⟨rfl, rfl, ?_, rfl⟩
  unfold get_comprehensive_analysis
  dsimp only
  rw [hl]
  cases bf <;> rfl

/-- C2 witness: the concrete company "Acme" on an empty cache. -/
theorem parse_failure_returns_canned_payload_witness :
    analyze_with_ai (.obj []) none .parseError = .ok (fallbackInsights "company") ∧
    (get_comprehensive_analysis "Acme" none none ⟨false, false, false, .parseError⟩ [] 0).result
      = Except.ok (assembleResult "Acme" (fallbackInsights "Acme")) ∧
    (assembleResult "Acme" (fallbackInsights "Acme")).confidence_score = 60 :=
  ⟨(parse_failure_returns_canned_payload (.obj []) none "Acme" none false false false [] 0 rfl).1,
   (parse_failure_returns_canned_payload (.obj []) none "Acme" none false false false [] 0 rfl).2.2.1,
   (parse_failure_returns_canned_payload (.obj []) none "Acme" none false false false [] 0 rfl).2.2.2⟩

/-- C3 counterexample: the code does not clamp the generator's
confidence score.  A parsed payload with `confidence_score = 150` flows
through to the returned result unchanged, so the returned score is not
in [0, 100]. -/
theorem confidence_score_range_counterexample :
    ¬ (∀ r, (get_comprehensive_analysis "Acme" none none
          ⟨false, false, false, .parsed { confidence_score := some 150 }⟩ [] 0).result
        = Except.ok r → 0 ≤ r.confidence_score ∧ r.confidence_score ≤ 100) := by
  intro h
  exact absurd (h (assembleResult "Acme" { confidence_score := some 150 }) rfl).2 (by decide)

/-- C3 (amended): a freshly generated result's `confidence_score` lies
in [0, 100] provided the generator's own value, when it supplies one,
lies in [0, 100]; the substituted defaults (70 when the parsed payload
omits the field, 60 in the fallback payload) are in range, but an
out-of-range generator value is passed through unclamped. -/
theorem confidence_score_range_amended (company : String) (market : Option String)
    (fa : Option (List String)) (env : Env)
    (st : List (String × CacheEntry)) (now : Int) (r : CompetitorIntelligence)
    (hl : cacheLookup st (cacheKey company market fa) = none)
    (hins : ∀ ins n, env.llm = .parsed ins → ins.confidence_score = some n → 0 ≤ n ∧ n ≤ 100)
    (hr : (get_comprehensive_analysis company market fa env st now).result = Except.ok r) :
    0 ≤ r.confidence_score ∧ r.confidence_score ≤ 100 := by
  unfold get_comprehensive_analysis at hr
  dsimp only at hr
  rw [hl] at hr
  unfold freshAnalysis at hr
  cases henv : env.llm with
  | parsed ins =>
      rw [henv] at hr
      simp only [analyze_with_ai] at hr
      rw [Except.ok.injEq] at hr
      subst hr
      cases hc : ins.confidence_score with
      | none => simp [assembleResult, hc]
      | some n =>
          have := hins ins n henv hc
          simpa [assembleResult, hc] using this
  | parseError =>
      rw [henv] at hr
      simp only [analyze_with_ai] at hr
      rw [Except.ok.injEq] at hr
      subst hr
      simp [assembleResult, fallbackInsights]
  | fatalError =>
      rw [henv] at hr
      simp [analyze_with_ai] at hr

/-- C3 witness: the amended bound at a concrete in-range generator
payload (confidence 85). -/
theorem confidence_score_range_amended_witness :
    (get_comprehensive_analysis "Acme" none none
        ⟨false, false, false, .parsed { confidence_score := some 85 }⟩ [] 0).result
      = Except.ok (assembleResult "Acme" { confidence_score := some 85 }) ∧
    0 ≤ (assembleResult "Acme" { confidence_score := some 85 }).confidence_score ∧
    (assembleResult "Acme" { confidence_score := some 85 }).confidence_score ≤ 100 :=
  ⟨rfl, confidence_score_range_amended "Acme" none none
    ⟨false, false, false, .parsed { confidence_score := some 85 }⟩ [] 0
    (assembleResult "Acme" { confidence_score := some 85 }) rfl
    (by rintro ins n ⟨rfl⟩ hc; rw [Option.some.injEq] at hc; omega) rfl⟩

/-- C4: every field the generator's mapping omits is filled with its
fixed default — empty string for `analysis_summary` and
`market_position`, empty list for the SWOT lists and recommendations,
70 for `confidence_score` — and `data_sources` is always the same fixed
four-tag list regardless of input. -/
theorem assemble_fills_defaults (company : String) (ins : AIInsights) :
    (ins.analysis_summary = none → (assembleResult company ins).analysis_summary = "") ∧
    (ins.strengths = none → (assembleResult company ins).strengths = []) ∧
    (ins.weaknesses = none → (assembleResult company ins).weaknesses = []) ∧
    (ins.opportunities = none → (assembleResult company ins).opportunities = []) ∧
    (ins.threats = none → (assembleResult company ins).threats = []) ∧
    (ins.market_position = none → (assembleResult company ins).market_position = "") ∧
    (ins.recommendations = none → (assembleResult company ins).recommendations = []) ∧
    (ins.confidence_score = none → (assembleResult company ins).confidence_score = 70) ∧
    (assembleResult company ins).data_sources
      = ["company_data", "news_analysis", "market_data", "ai_analysis"] := by
  refine ⟨?_, ?_, ?_, ?_, ?_, ?_, ?_, ?_, rfl⟩ <;> intro h <;> simp [assembleResult, h]

/-- C4 witness: the defaults at the empty generator mapping. -/
theorem assemble_fills_defaults_witness :
    (assembleResult "X" {}).analysis_summary = "" ∧
    (assembleResult "X" {}).confidence_score = 70 ∧
    (assembleResult "X" {}).data_sources
      = ["company_data", "news_analysis", "market_data", "ai_analysis"] :=
  ⟨(assemble_fills_defaults "X" {}).1 rfl,
   (assemble_fills_defaults "X" {}).2.2.2.2.2.2.2.1 rfl,
   (assemble_fills_defaults "X" {}).2.2.2.2.2.2.2.2⟩

/-- C5: `is_cache_valid` holds exactly when the current time minus the
entry's creation timestamp is strictly less than the TTL, and the TTL is
the fixed configuration value 3600 seconds. -/
theorem is_cache_valid_iff_within_ttl (cache_entry : CacheEntry) (now : Int) :
    (is_cache_valid cache_entry now = true ↔ now - cache_entry.timestamp < CACHE_TTL) ∧
    CACHE_TTL = 3600 :=
  ⟨by simp [is_cache_valid], rfl⟩

/-- C6 counterexample: the key is not independent of the order of
`focus_areas` — the source joins the list in the given order, so
`["a", "b"]` and `["b", "a"]` hash to different keys. -/
theorem cache_key_order_counterexample :
    cacheKey "Apple" (some "tech") (some ["a", "b"])
      ≠ cacheKey "Apple" (some "tech") (some ["b", "a"]) := by decide

/-- C6 (amended): the cache key is a deterministic function of
`(company, market, focus_areas)` — equal arguments always compute equal
keys — but it is order-sensitive in `focus_areas`: reordering the focus
list can change the key, as `["a", "b"]` versus `["b", "a"]` shows. -/
theorem cache_key_deterministic_order_sensitive
    (c₁ c₂ : String) (m₁ m₂ : Option String) (f₁ f₂ : Option (List String))
    (hc : c₁ = c₂) (hm : m₁ = m₂) (hf : f₁ = f₂) :
    cacheKey c₁ m₁ f₁ = cacheKey c₂ m₂ f₂ ∧
    cacheKey "Apple" (some "tech") (some ["a", "b"])
      ≠ cacheKey "Apple" (some "tech") (some ["b", "a"]) := by
  subst hc; subst hm; subst hf
  exact ⟨rfl, by decide⟩

/-- C6 witness: determinism at the spec's own example arguments. -/
theorem cache_key_deterministic_order_sensitive_witness :
    cacheKey "Apple" (some "tech") (some ["a", "b"])
      = cacheKey "Apple" (some "tech") (some ["a", "b"]) ∧
    cacheKey "Apple" (some "tech") (some ["a", "b"])
      ≠ cacheKey "Apple" (some "tech") (some ["b", "a"]) :=
  cache_key_deterministic_order_sensitive "Apple" "Apple" (some "tech") (some "tech")
    (some ["a", "b"]) (some ["a", "b"]) rfl rfl rfl

/-- C7 counterexample: a failing news collector is not replaced by an
error-tagged bag — its except-branch returns the empty list, which
carries no `"error"` key. -/
theorem news_failure_not_error_tagged :
    get_recent_news "Acme" 30 true 0 = JsonVal.arr [] ∧
    hasErrorTag (get_recent_news "Acme" 30 true 0) = false :=
  ⟨rfl, rfl⟩

/-- C7 (amended): each collector catches its own failure locally —
basic info and market data are replaced by error-tagged stand-in bags,
while the news collector is replaced by an empty, untagged list — and
the analysis request proceeds to a successful result for every
combination of collector failures. -/
theorem collector_failures_isolated (company : String) (market : Option String)
    (fa : Option (List String)) (bf nf mf : Bool)
    (st : List (String × CacheEntry)) (now t : Int)
    (hl : cacheLookup st (cacheKey company market fa) = none) :
    hasErrorTag (get_company_basic_info company true) = true ∧
    hasErrorTag (get_market_data company true) = true ∧
    get_recent_news company 30 true now = JsonVal.arr [] ∧
    (get_comprehensive_analysis company market fa ⟨bf, nf, mf, .parseError⟩ st t).result
      = Except.ok (assembleResult company (fallbackInsights company)) := by
  refine ⟨rfl, rfl, rfl, ?_⟩
  unfold get_comprehensive_analysis
  dsimp only
  rw [hl]
  cases bf <;> rfl

/-- C7 witness: all three collectors failing at once on an empty cache
still yields a successful analysis. -/
theorem collector_failures_isolated_witness :
    hasErrorTag (get_company_basic_info "Acme" true) = true ∧
    hasErrorTag (get_market_data "Acme" true) = true ∧
    get_recent_news "Acme" 30 true 0 = JsonVal.arr [] ∧
    (get_comprehensive_analysis "Acme" none none ⟨true, true, true, .parseError⟩ [] 0).result
      = Except.ok (assembleResult "Acme" (fallbackInsights "Acme")) :=
  collector_failures_isolated "Acme" none none true true true [] 0 0 rfl

/-- C8: a request whose company name trims to the empty string is
rejected with HTTP 400 (not 500), with no collector call, no generator
call, and no cache access of any kind. -/
theorem blank_company_rejected_400 (request : CompanyAnalysisRequest) (env : Env)
    (st : List (String × CacheEntry)) (now : Int)
    (h : trimStr request.company = "") :
    analyze_competitor request env st now =
      { response := .httpError 400 "Company name is required", cache := st,
        cacheReads := 0, collectorCalls := 0, generatorCalls := 0,
        cacheWrites := 0 } := by
  unfold analyze_competitor
  rw [h]
  simp

/-- C8 witness: an all-whitespace company name. -/
theorem blank_company_rejected_400_witness :
    trimStr "   " = "" ∧
    analyze_competitor ⟨"   ", none, none⟩ ⟨false, false, false, .parseError⟩ [] 0 =
      { response := .httpError 400 "Company name is required", cache := [],
        cacheReads := 0, collectorCalls := 0, generatorCalls := 0,
        cacheWrites := 0 } :=
  ⟨rfl, blank_company_rejected_400 ⟨"   ", none, none⟩ ⟨false, false, false, .parseError⟩ [] 0 rfl⟩

/-- C9: the cache key is not injective.  An omitted market serializes
as the literal text `None`, colliding with the explicit market string
"None"; and `["a", "b"]` joins to the same segment as `["a-b"]`.  A
result cached for one request is then served, within the TTL, to the
other, distinct request: the second run below answers from the first
run's cache with no collector or generator call. -/
theorem cache_key_not_injective :
    (some "None" ≠ (none : Option String)) ∧
    cacheKey "Apple" none (some ["x"]) = cacheKey "Apple" (some "None") (some ["x"]) ∧
    (["a", "b"] ≠ ["a-b"]) ∧
    cacheKey "Apple" (some "m") (some ["a", "b"]) = cacheKey "Apple" (some "m") (some ["a-b"]) ∧
    (get_comprehensive_analysis "Apple" (some "None") (some ["x"]) ⟨false, false, false, .parseError⟩
        (get_comprehensive_analysis "Apple" none (some ["x"]) ⟨false, false, false, .parseError⟩ [] 0).cache
        10).result
      = (get_comprehensive_analysis "Apple" none (some ["x"]) ⟨false, false, false, .parseError⟩ [] 0).result ∧
    (get_comprehensive_analysis "Apple" (some "None") (some ["x"]) ⟨false, false, false, .parseError⟩
        (get_comprehensive_analysis "Apple" none (some ["x"]) ⟨false, false, false, .parseError⟩ [] 0).cache
        10).generatorCalls = 0 ∧
    (get_comprehensive_analysis "Apple" (some "None") (some ["x"]) ⟨false, false, false, .parseError⟩
        (get_comprehensive_analysis "Apple" none (some ["x"]) ⟨false, false, false, .parseError⟩ [] 0).cache
        10).collectorCalls = 0 :=
  ⟨by decide, by decide, by decide, by decide, rfl, rfl, rfl⟩

/-- C10: the webhook routes by a case-insensitive prefix match with no
word boundary — a message reaches the fixed greeting/help branch exactly
when its trimmed, lowercased content does not start with "analyze",
"check" or "research"; in particular "checking on something" is treated
as an analysis command for the company "on something". -/
theorem webhook_prefix_routing (rawContent : String) :
    (telex_webhook rawContent = .greeting ↔
      isAnalysisCommand (lowerStr (trimStr rawContent)) = false) ∧
    telex_webhook "checking on something" = .analysis "on something" := by
  refine ⟨?_, by decide⟩
  unfold telex_webhook
  dsimp only
  cases hc : isAnalysisCommand (lowerStr (trimStr rawContent)) with
  | false => simp
  | true =>
      simp only [if_true]
      rcases hs : splitOnce (trimStr rawContent) with ⟨a, b⟩
      cases b <;> simp
